import Mathlib

/-!
Shallow embedding of the self-healing UI-test locator engine
(`self_healing_testing.py`): heuristic similarity scoring, feature
extraction, the self-supervised labelling and ranking round, golden
reference capture, and the persistence boundary.  Strings are Lean
`String`s; Python string operations (`strip`, `lower`, `replace` with
one-character patterns, substring `in`, whitespace `split`) are modelled
by executable helpers on `List Char`.  The page-automation driver and the
gradient-boosted classifier are out-of-scope collaborators and enter as
explicit function-valued parameters, exactly at the boundary the code
uses them.
-/

namespace SelfHealing

/-- Whitespace characters removed by Python `str.strip()` / split by `str.split()`. -/
def wsChar (c : Char) : Bool :=
  c = ' ' || c = '\t' || c = '\n' || c = '\x0d' || c = '\x0b' || c = '\x0c'

/-- Python `str.strip()` on the character list: drop whitespace from both ends. -/
def stripL (l : List Char) : List Char :=
  ((l.dropWhile wsChar).reverse.dropWhile wsChar).reverse

/-- Python `s.strip()`. -/
def pyStrip (s : String) : String := ⟨stripL s.data⟩

/-- Python `s.lower()` (character-wise). -/
def lowerStr (s : String) : String := ⟨s.data.map Char.toLower⟩

/-- Replace every occurrence of the single character `a` by `rep`
(models Python `s.replace(a, rep)` for one-character patterns). -/
def replaceChar (a : Char) (rep : List Char) : List Char → List Char
  | [] => []
  | c :: rest => (if c = a then rep else [c]) ++ replaceChar a rep rest

/-- Python `s.replace(a, rep)` with a one-character pattern `a`. -/
def pyReplace1 (a : Char) (rep : String) (s : String) : String :=
  ⟨replaceChar a rep.data s.data⟩

/-- Boolean list-prefix test (structural). -/
def isPrefL : List Char → List Char → Bool
  | [], _ => true
  | _ :: _, [] => false
  | a :: as, b :: bs => (a = b) && isPrefL as bs

/-- Boolean contiguous-sublist test: Python `sub in hay` for strings. -/
def isSubL (sub : List Char) : List Char → Bool
  | [] => sub.isEmpty
  | b :: bs => isPrefL sub (b :: bs) || isSubL sub bs

/-- Python `sub in hay` on strings. -/
def subStr (sub hay : String) : Bool := isSubL sub.data hay.data

/-- Python `s.split()` on characters: maximal non-whitespace runs. -/
def splitWSChars (l : List Char) : List (List Char) :=
  (l.foldr
    (fun c acc =>
      if wsChar c then [] :: acc
      else
        match acc with
        | [] => [[c]]
        | g :: gs => (c :: g) :: gs)
    []).filter (fun g => ¬ g.isEmpty)

/-- Python `s.split()`. -/
def pySplit (s : String) : List String :=
  (splitWSChars s.data).map (fun l => ⟨l⟩)

/-- Python `".".join(parts)`. -/
def joinDot : List String → String
  | [] => ""
  | [x] => x
  | x :: y :: ys => x ++ "." ++ joinDot (y :: ys)

/-- Python truthiness of a `get_attribute` result: `None` and `""` are falsy. -/
def truthyOpt : Option String → Bool
  | some s => ¬ (s = "")
  | none => false

/-- Python `a or b` on two `get_attribute` results. -/
def pyOr (a b : Option String) : Option String :=
  if truthyOpt a then a else b

/-- Attributes of the immediate parent element, as the code reads them
(`tag_name`, `get_attribute` for id/class/name/data-testid); the same
record shape is stored verbatim inside a golden snapshot's `parent`. -/
structure PElem where
  tag : String
  id : Option String
  name : Option String
  dataTestid : Option String
  «class» : Option String
deriving DecidableEq

/-- A live element at the driver boundary: `tag_name`, the attributes the
code ever queries (`get_attribute` returning `None` or a string), the
visible `text`, the `innerHTML` DOM property (always a string), and the
parent lookup result (`None` models the caught exception of
`find_element(By.XPATH, "..")`). -/
structure Elem where
  tag : String
  id : Option String
  name : Option String
  dataTestid : Option String
  «class» : Option String
  placeholder : Option String
  text : String
  innerHTML : String
  parent : Option PElem
deriving DecidableEq

instance : Inhabited Elem :=
  ⟨{ tag := "", id := none, name := none, dataTestid := none, «class» := none,
     placeholder := none, text := "", innerHTML := "", parent := none }⟩

/-- A golden attribute snapshot as built by `capture_element_attributes`:
the keys `tag/id/class/name/data-testid/text` are always present,
`innerHTML` only for `div` elements, `parent` may be `None`. -/
structure Snapshot where
  tag : String
  id : Option String
  name : Option String
  dataTestid : Option String
  «class» : Option String
  text : String
  innerHTML : Option String
  parent : Option PElem
deriving DecidableEq

/-- The page-automation driver boundary: page title, `find_elements` by
tag name, and `find_element` by XPath (`none` models
`NoSuchElementException`). -/
structure Driver where
  title : String
  findElements : String → List Elem
  findElement : String → Option Elem

/-- The function `capture_element_attributes`: snapshot the element's stable
attributes and its parent's; `text` is stripped, `innerHTML` is captured
(stripped) only when the lower-cased tag is `div`. -/
def capture_element_attributes (e : Elem) : Snapshot :=
  { tag := e.tag
    id := e.id
    «class» := e.«class»
    name := e.name
    dataTestid := e.dataTestid
    text := pyStrip e.text
    innerHTML := if lowerStr e.tag = "div" then some (pyStrip e.innerHTML) else none
    parent := e.parent }

/-- The function `compute_similarity`: the heuristic weighted attribute-match score.
A lower-cased tag mismatch short-circuits to 0; otherwise weights
accumulate for id (10), name (10), data-testid (8), class (5), golden
text contained in the candidate's stripped text (3), golden innerHTML
contained in the candidate's stripped innerHTML (2), and parent tag /
id / class matches (2 / 5 / 3) when both parent records exist. -/
def compute_similarity (golden : Snapshot) (candidate : Elem) : Nat :=
  if ¬ (lowerStr candidate.tag = lowerStr golden.tag) then 0
  else
    (if candidate.id = golden.id then 10 else 0)
    + (if candidate.name = golden.name then 10 else 0)
    + (if candidate.dataTestid = golden.dataTestid then 8 else 0)
    + (if candidate.«class» = golden.«class» then 5 else 0)
    + (if ¬ (pyStrip candidate.text = "") ∧ ¬ (golden.text = "")
          ∧ subStr golden.text (pyStrip candidate.text) then 3 else 0)
    + (match golden.innerHTML with
       | some gih =>
         if ¬ (gih = "") ∧ ¬ (pyStrip candidate.innerHTML = "")
            ∧ subStr gih (pyStrip candidate.innerHTML) then 2 else 0
       | none => 0)
    + (match candidate.parent, golden.parent with
       | some cp, some gp =>
         (if lowerStr cp.tag = lowerStr gp.tag then 2 else 0)
         + (if cp.id = gp.id then 5 else 0)
         + (if cp.«class» = gp.«class» then 3 else 0)
       | _, _ => 0)

/-- The function `extract_features`: the fixed 10-vector — binary flags f0..f5 for
id / name / data-testid / class / text containment / innerHTML
containment (the innerHTML check here uses the raw, unstripped candidate
innerHTML), f6 the heuristic score normalised by 48, and f7..f9 the
parent tag / id / class flags. -/
def extract_features (golden : Snapshot) (candidate : Elem) : List ℚ :=
  let f0 : ℚ := if candidate.id = golden.id then 1 else 0
  let f1 : ℚ := if candidate.name = golden.name then 1 else 0
  let f2 : ℚ := if candidate.dataTestid = golden.dataTestid then 1 else 0
  let f3 : ℚ := if candidate.«class» = golden.«class» then 1 else 0
  let f4 : ℚ := if ¬ (pyStrip candidate.text = "") ∧ ¬ (golden.text = "")
                   ∧ subStr golden.text (pyStrip candidate.text) then 1 else 0
  let f5 : ℚ := match golden.innerHTML with
    | some gih =>
      if ¬ (gih = "") ∧ ¬ (candidate.innerHTML = "")
         ∧ subStr gih candidate.innerHTML then 1 else 0
    | none => 0
  let f6 : ℚ := (compute_similarity golden candidate : ℚ) / 48
  let fp : ℚ × ℚ × ℚ := match candidate.parent, golden.parent with
    | some cp, some gp =>
      (if lowerStr cp.tag = lowerStr gp.tag then 1 else 0,
       if cp.id = gp.id then 1 else 0,
       if cp.«class» = gp.«class» then 1 else 0)
    | _, _ => (0, 0, 0)
  [f0, f1, f2, f3, f4, f5, f6, fp.1, fp.2.1, fp.2.2]

/-- The function `generate_golden_identifier`: page-scoped identifier; with an element
supplied it prefers data-testid, then id-or-name, then tag+class, then
tag+short text, else (and always when no element is supplied) the
sanitized original XPath. -/
def generate_golden_identifier (d : Driver) (original_xpath : String)
    (element : Option Elem) : String :=
  let page_key := pyReplace1 ' ' "_" d.title
  let sanitized :=
    pyReplace1 '@' "" (pyReplace1 ']' "" (pyReplace1 '[' "" (pyReplace1 '/' "_" original_xpath)))
  match element with
  | some e =>
    if truthyOpt e.dataTestid then
      page_key ++ "_golden_" ++ e.dataTestid.getD ""
    else if truthyOpt (pyOr e.id e.name) then
      page_key ++ "_golden_" ++ (pyOr e.id e.name).getD ""
    else if truthyOpt e.«class» then
      page_key ++ "_golden_" ++ e.tag ++ "_" ++
        pyReplace1 ' ' "_" (pyStrip (e.«class».getD ""))
    else if ¬ (pyStrip e.text = "") ∧ (pyStrip e.text).length < 20 then
      page_key ++ "_golden_" ++ e.tag ++ "_" ++ pyReplace1 ' ' "_" (pyStrip e.text)
    else
      page_key ++ "_golden_" ++ sanitized
  | none => page_key ++ "_golden_" ++ sanitized

/-- The function `generate_selector`: synthesize a locator for the chosen candidate in
strict priority order — id, data-testid, placeholder, visible text,
tag+classes, bare tag. -/
def generate_selector (c : Elem) : String :=
  if truthyOpt c.id then
    "//*[@id=\x27" ++ c.id.getD "" ++ "\x27]"
  else if truthyOpt c.dataTestid then
    "//*[@data-testid=\x27" ++ c.dataTestid.getD "" ++ "\x27]"
  else if truthyOpt c.placeholder then
    "//" ++ c.tag ++ "[@placeholder=\x27" ++ c.placeholder.getD "" ++ "\x27]"
  else if ¬ (pyStrip c.text = "") then
    "//" ++ c.tag ++ "[contains(text(), \x27" ++ pyStrip c.text ++ "\x27)]"
  else if truthyOpt c.«class» then
    c.tag ++ "." ++ joinDot (pySplit (c.«class».getD ""))
  else
    "//" ++ c.tag

/-- The function `get_all_candidates`: every live element sharing the golden's tag. -/
def get_all_candidates (d : Driver) (golden : Snapshot) : List Elem :=
  d.findElements golden.tag

/-! ## Learned ranker boundary and the healing round -/

/-- A feature vector row. -/
abbrev Feat := List ℚ

/-- The trained classifier, consumed as a black box: `predict` is
`predict_proba(..)[:, 1]`, one class-1 probability per input row. -/
structure Model where
  predict : List Feat → List ℚ
  len_eq : ∀ fs, (predict fs).length = fs.length

/-- The out-of-scope training algorithm `fit(features, labels) → scorer`. -/
abbrev Fit := List Feat → List Nat → Model

/-- Durable storage touched by a healing round: the pickled training
corpus and the pickled model blob. -/
structure Files where
  trainingFile : Option (List Feat × List Nat)
  modelFile : Option Model

/-- The constant `MIN_SAMPLES_FOR_MODEL`. -/
def MIN_SAMPLES_FOR_MODEL : Nat := 5

/-- The maximum of a list of rationals (`0` for the empty list, which the
round never queries). -/
def maxVal : List ℚ → ℚ
  | [] => 0
  | [x] => x
  | x :: y :: ys => max x (maxVal (y :: ys))

/-- Like `np.argmax`: the index of the first occurrence of the maximum. -/
def argmaxL : List ℚ → Nat
  | [] => 0
  | [_] => 0
  | x :: y :: ys => if maxVal (y :: ys) ≤ x then 0 else argmaxL (y :: ys) + 1

/-- The feature matrix of a round (one row per candidate). -/
def featuresList (golden : Snapshot) (cs : List Elem) : List Feat :=
  cs.map (extract_features golden)

/-- The heuristic score column of a round (as the numeric array the code
feeds to `np.argmax`). -/
def heuristicScores (golden : Snapshot) (cs : List Elem) : List ℚ :=
  cs.map (fun c => (compute_similarity golden c : ℚ))

/-- The value `best_index_heuristic`: first arg-max of the heuristic scores. -/
def bestIndexHeuristic (golden : Snapshot) (cs : List Elem) : Nat :=
  argmaxL (heuristicScores golden cs)

/-- The self-supervised label column: 1 at the heuristic's pick, else 0. -/
def labelsFor (golden : Snapshot) (cs : List Elem) : List Nat :=
  (List.range cs.length).map (fun i => if i = bestIndexHeuristic golden cs then 1 else 0)

/-- The training corpus's vector list after appending the round's rows. -/
def corpusAfterData (golden : Snapshot) (cs : List Elem) (td : List Feat) : List Feat :=
  td ++ featuresList golden cs

/-- The training corpus's label list after appending the round's labels. -/
def corpusAfterLabels (golden : Snapshot) (cs : List Elem) (tl : List Nat) : List Nat :=
  tl ++ labelsFor golden cs

/-- The model in force for the round's ranking decision: a classifier
refit from scratch on the entire appended corpus when its length reaches
the threshold, otherwise whatever model was already loaded. -/
def modelAfter (fit : Fit) (golden : Snapshot) (cs : List Elem)
    (td : List Feat) (tl : List Nat) (model : Option Model) : Option Model :=
  if MIN_SAMPLES_FOR_MODEL ≤ (corpusAfterLabels golden cs tl).length then
    some (fit (corpusAfterData golden cs td) (corpusAfterLabels golden cs tl))
  else model

/-- The durable files after the round: corpus and model are written
exactly when the retrain fires, otherwise untouched. -/
def filesAfter (fit : Fit) (golden : Snapshot) (cs : List Elem)
    (td : List Feat) (tl : List Nat) (files : Files) : Files :=
  if MIN_SAMPLES_FOR_MODEL ≤ (corpusAfterLabels golden cs tl).length then
    { trainingFile := some (corpusAfterData golden cs td, corpusAfterLabels golden cs tl)
      modelFile := some (fit (corpusAfterData golden cs td) (corpusAfterLabels golden cs tl)) }
  else files

/-- The round's winning candidate: the model's probability arg-max when a
model is in force, else the heuristic arg-max (`dflt` is never reached on
a non-empty candidate list). -/
def chosenElem (fit : Fit) (golden : Snapshot) (cs : List Elem)
    (td : List Feat) (tl : List Nat) (model : Option Model) (dflt : Elem) : Elem :=
  match modelAfter fit golden cs td tl model with
  | some m => cs.getD (argmaxL (m.predict (featuresList golden cs))) dflt
  | none => cs.getD (bestIndexHeuristic golden cs) dflt

/-- The terminal errors a healing round can raise. -/
inductive HealErr where
  | noCandidatesFound (tag : String)
  | healingVerificationFailed
deriving DecidableEq

/-- The function `self_heal_selector`: one healing round.  Enumerate candidates (fatal
if none), score and label them, extend the corpus (an in-place list
mutation in the source, so it survives a later exception), retrain and
persist when the corpus reaches the threshold, rank with the model in
force (else the heuristic), synthesize a locator for the winner, and
verify it re-resolves — returning it on success and raising otherwise.
The first component is the post-round mutable state (corpus and files);
the second the returned value or the raised error (the returned model is
only handed back to the caller on success, as in the source). -/
def self_heal_selector (fit : Fit) (d : Driver) (golden : Snapshot)
    (training_data : List Feat) (training_labels : List Nat)
    (model : Option Model) (files : Files) :
    (List Feat × List Nat × Files) × Except HealErr (String × Elem × Option Model) :=
  match get_all_candidates d golden with
  | [] =>
    ((training_data, training_labels, files),
     Except.error (HealErr.noCandidatesFound golden.tag))
  | c0 :: rest =>
    let cs := c0 :: rest
    let td2 := corpusAfterData golden cs training_data
    let tl2 := corpusAfterLabels golden cs training_labels
    let model2 := modelAfter fit golden cs training_data training_labels model
    let files2 := filesAfter fit golden cs training_data training_labels files
    let chosen := chosenElem fit golden cs training_data training_labels model c0
    let new_selector := generate_selector chosen
    match d.findElement new_selector with
    | some _ => ((td2, tl2, files2), Except.ok (new_selector, chosen, model2))
    | none => ((td2, tl2, files2), Except.error HealErr.healingVerificationFailed)

/-- The corpus growth of one healing round over candidate set `cs`. -/
def heal_append (golden : Snapshot) (cs : List Elem) :
    List Feat × List Nat → List Feat × List Nat
  | (td, tl) => (corpusAfterData golden cs td, corpusAfterLabels golden cs tl)

/-- A session of healing rounds folded over the corpus. -/
def runRounds : List (Snapshot × List Elem) → List Feat × List Nat → List Feat × List Nat
  | [], st => st
  | r :: rs, st => runRounds rs (heal_append r.1 r.2 st)

/-- Total candidate count over a session's rounds. -/
def sumC (rounds : List (Snapshot × List Elem)) : Nat :=
  (rounds.map (fun r => r.2.length)).sum

/-! ## Agent golden-reference state -/

/-- The persisted golden table: page key to (identifier to snapshot). -/
abbrev GoldenTable := List (String × List (String × Snapshot))

/-- The Agent's golden-store state: its page key, the in-memory table,
and the table as last written to the durable file. -/
structure AgentSt where
  pageKey : String
  table : GoldenTable
  file : GoldenTable
deriving DecidableEq

/-- Association-list lookup (Python dict access; keys are unique). -/
def lookupA {α : Type} : List (String × α) → String → Option α
  | [], _ => none
  | (k, v) :: rest, key => if key = k then some v else lookupA rest key

/-- Lookup of a page's golden map. -/
def lookupPage (t : GoldenTable) (pk : String) : Option (List (String × Snapshot)) :=
  lookupA t pk

/-- Models `self.global_data[self.page_key][golden_id] = golden`: insert under
the page's map. -/
def insertGolden : GoldenTable → String → String → Snapshot → GoldenTable
  | [], _, _, _ => []
  | (k, m) :: rest, pk, gid, s =>
    if k = pk then (k, (gid, s) :: m) :: insertGolden rest pk gid s
    else (k, m) :: insertGolden rest pk gid s

/-- The method `SelfHealingAgent.capture_golden_if_missing`: derive the identifier
(always without an element), return it untouched when an entry already
exists, otherwise inspect the live element, snapshot it, insert it and
persist; a failed live lookup is caught and leaves the state unchanged.
`none` models the `KeyError` of a missing page namespace, which the
constructor rules out. -/
def capture_golden_if_missing (d : Driver) (st : AgentSt) (xpath : String) :
    Option (String × AgentSt) :=
  let gid := generate_golden_identifier d xpath none
  match lookupPage st.table st.pageKey with
  | none => none
  | some pg =>
    match lookupA pg gid with
    | some _ => some (gid, st)
    | none =>
      match d.findElement xpath with
      | some e =>
        let snap := capture_element_attributes e
        let t2 := insertGolden st.table st.pageKey gid snap
        some (gid, { st with table := t2, file := t2 })
      | none => some (gid, st)

/-! ## Concrete fixtures (drivers, elements, models) for witnesses and
counterexamples -/

/-- A golden snapshot for an `input` with `id="email"` and nothing else. -/
def gW : Snapshot :=
  { tag := "input", id := some "email", name := none, dataTestid := none,
    «class» := none, text := "", innerHTML := none, parent := none }

/-- A live candidate identical to `gW` in the scored attributes. -/
def cW0 : Elem :=
  { tag := "input", id := some "email", name := none, dataTestid := none,
    «class» := none, placeholder := none, text := "", innerHTML := "", parent := none }

/-- A live candidate with a different id. -/
def cW1 : Elem :=
  { tag := "input", id := some "other", name := none, dataTestid := none,
    «class» := none, placeholder := none, text := "", innerHTML := "", parent := none }

/-- A classifier that scores every row 0. -/
def mZero : Model :=
  { predict := fun fs => fs.map (fun _ => 0)
    len_eq := by intro fs; simp }

/-- A classifier whose class-1 probability grows with the row index, so
its arg-max is the last row. -/
def mLast : Model :=
  { predict := fun fs => List.map (fun i : ℕ => (i : ℚ)) (List.range fs.length)
    len_eq := by intro fs; rw [List.length_map, List.length_range] }

/-- A black-box trainer fixture. -/
def fitW : Fit := fun _ _ => mZero

/-- Empty durable files. -/
def filesW : Files := { trainingFile := none, modelFile := none }

/-- A page with the two `input` candidates, on which every XPath query
resolves (verification succeeds). -/
def dW : Driver :=
  { title := "Page"
    findElements := fun t => if t = "input" then [cW0, cW1] else []
    findElement := fun _ => some cW0 }

/-- A page with one `input` candidate on which no XPath query resolves
(verification fails). -/
def dV : Driver :=
  { title := "Page"
    findElements := fun t => if t = "input" then [cW0] else []
    findElement := fun _ => none }

/-- A golden `div` snapshot with an id, used for the tag-case analysis. -/
def gDiv : Snapshot :=
  { tag := "div", id := some "x", name := none, dataTestid := none,
    «class» := none, text := "", innerHTML := none, parent := none }

/-- A candidate whose tag string `DIV` differs from `div` only by case. -/
def cDivUpper : Elem :=
  { tag := "DIV", id := some "x", name := none, dataTestid := none,
    «class» := none, placeholder := none, text := "", innerHTML := "", parent := none }

/-- A candidate with a genuinely different tag. -/
def cSpan : Elem :=
  { tag := "span", id := some "x", name := none, dataTestid := none,
    «class» := none, placeholder := none, text := "", innerHTML := "", parent := none }

/-- A parent element fixture. -/
def pFull : PElem :=
  { tag := "section", id := some "pid", name := none, dataTestid := none,
    «class» := some "pc" }

/-- A `div` element matching its own snapshot in every captured attribute,
with non-empty text and innerHTML and a parent. -/
def eFull : Elem :=
  { tag := "div", id := some "i", name := some "n", dataTestid := some "t",
    «class» := some "c", placeholder := none, text := "hello",
    innerHTML := "<b>hi</b>", parent := some pFull }

/-- A parent fixture with no attributes. -/
def pEmpty : PElem :=
  { tag := "body", id := none, name := none, dataTestid := none, «class» := none }

/-- A `div` element with a parent but empty text, empty innerHTML and no
attributes: identical to its own snapshot in every captured attribute. -/
def eEmpty : Elem :=
  { tag := "div", id := none, name := none, dataTestid := none,
    «class» := none, placeholder := none, text := "", innerHTML := "",
    parent := some pEmpty }

/-- An element carrying a `data-testid`, present on `dC`'s page. -/
def eTid : Elem :=
  { tag := "input", id := none, name := none, dataTestid := some "foo",
    «class» := none, placeholder := none, text := "", innerHTML := "", parent := none }

/-- A driver for the golden-capture scenarios. -/
def dC : Driver :=
  { title := "Login Page"
    findElements := fun _ => [eTid]
    findElement := fun _ => some eTid }

/-- Agent state with an empty namespace for `dC`'s page. -/
def stC : AgentSt :=
  { pageKey := "Login_Page"
    table := [("Login_Page", [])]
    file := [("Login_Page", [])] }

/-- The golden table after `dC`/`stC` captures xpath `//input`. -/
def tC2 : GoldenTable :=
  [("Login_Page", [("Login_Page_golden___input", capture_element_attributes eTid)])]

/-- Agent state after that capture. -/
def stC2 : AgentSt := { pageKey := "Login_Page", table := tC2, file := tC2 }

/-- A page map already holding the golden for xpath `//input` on `dW`. -/
def pgB : List (String × Snapshot) :=
  [("Page_golden___input", capture_element_attributes cW0)]

/-- Agent state for `dW` whose golden entry already exists. -/
def stB : AgentSt :=
  { pageKey := "Page", table := [("Page", pgB)], file := [("Page", pgB)] }

/-! ## Helper lemmas about the embedded operations -/

theorem maxVal_cons (x : ℚ) (l : List ℚ) (h : ¬ (l = [])) :
    maxVal (x :: l) = max x (maxVal l) := by
  rcases l with _ | ⟨y, ys⟩
  · exact absurd rfl h
  · rfl

theorem argmaxL_lt_length (l : List ℚ) (h : ¬ (l = [])) : argmaxL l < l.length := by
  induction l with
  | nil => exact absurd rfl h
  | cons x xs ih =>
    rcases xs with _ | ⟨y, ys⟩
    · simp [argmaxL]
    · by_cases hc : maxVal (y :: ys) ≤ x
      · simp [argmaxL, hc]
      · have h2 := ih (by simp)
        simp only [argmaxL, if_neg hc, List.length_cons] at h2 ⊢
        omega

theorem getD_argmaxL (l : List ℚ) (h : ¬ (l = [])) :
    l.getD (argmaxL l) 0 = maxVal l := by
  induction l with
  | nil => exact absurd rfl h
  | cons x xs ih =>
    rcases xs with _ | ⟨y, ys⟩
    · simp [argmaxL, maxVal]
    · by_cases hc : maxVal (y :: ys) ≤ x
      · simp [argmaxL, maxVal, hc, max_eq_left hc]
      · have hih := ih (by simp)
        have hlt : x < maxVal (y :: ys) := lt_of_not_le hc
        rw [show argmaxL (x :: y :: ys) = argmaxL (y :: ys) + 1 by
          simp [argmaxL, hc]]
        simpa [maxVal, max_eq_right hlt.le] using hih

theorem getD_le_maxVal (l : List ℚ) (j : Nat) (h : j < l.length) :
    l.getD j 0 ≤ maxVal l := by
  induction l generalizing j with
  | nil => simp at h
  | cons x xs ih =>
    rcases xs with _ | ⟨y, ys⟩
    · rcases j with _ | j
      · simp [maxVal]
      · simp at h
    · rcases j with _ | j
      · simp [maxVal]
      · have h2 : j < (y :: ys).length := by
          simpa using Nat.lt_of_succ_lt_succ h
        have h3 := ih j h2
        simp only [List.getD_cons_succ, maxVal]
        exact h3.trans (le_max_right _ _)

theorem getD_lt_of_lt_argmaxL (l : List ℚ) (j : Nat) (h : j < argmaxL l) :
    l.getD j 0 < maxVal l := by
  induction l generalizing j with
  | nil => simp [argmaxL] at h
  | cons x xs ih =>
    rcases xs with _ | ⟨y, ys⟩
    · simp [argmaxL] at h
    · by_cases hc : maxVal (y :: ys) ≤ x
      · simp [argmaxL, hc] at h
      · have hx : x < maxVal (y :: ys) := lt_of_not_le hc
        have hm : maxVal (x :: y :: ys) = maxVal (y :: ys) := by
          simp [maxVal, max_eq_right hx.le]
        rw [hm]
        have h2 : j < argmaxL (y :: ys) + 1 := by
          simpa [argmaxL, hc] using h
        rcases j with _ | j
        · simpa using hx
        · simpa using ih j (Nat.lt_of_succ_lt_succ h2)

theorem isPrefL_refl (l : List Char) : isPrefL l l = true := by
  induction l with
  | nil => rfl
  | cons a as ih => simp [isPrefL, ih]

theorem isPrefL_append (l r : List Char) : isPrefL l (l ++ r) = true := by
  induction l with
  | nil => rfl
  | cons a as ih => simp [isPrefL, ih]

theorem isSubL_nil_sub (l : List Char) : isSubL [] l = true := by
  induction l with
  | nil => rfl
  | cons b bs ih => simp [isSubL, isPrefL, ih]

theorem isSubL_prefix_part (m post : List Char) : isSubL m (m ++ post) = true := by
  rcases m with _ | ⟨a, as⟩
  · simpa using isSubL_nil_sub post
  · show isSubL (a :: as) (a :: (as ++ post)) = true
    simp [isSubL, isPrefL, isPrefL_append]

theorem isSubL_sandwich (pre m post : List Char) :
    isSubL m (pre ++ (m ++ post)) = true := by
  induction pre with
  | nil => simpa using isSubL_prefix_part m post
  | cons p ps ih => simp [isSubL, ih]

theorem isSubL_refl (l : List Char) : isSubL l l = true := by
  have h := isSubL_prefix_part l []
  simpa using h

theorem subStr_refl (s : String) : subStr s s = true := isSubL_refl s.data

theorem exists_strip_decomp (l : List Char) :
    ∃ pre post, l = pre ++ (stripL l ++ post) := by
  refine ⟨l.takeWhile wsChar,
          ((l.dropWhile wsChar).reverse.takeWhile wsChar).reverse, ?_⟩
  have hdw : l.dropWhile wsChar
      = stripL l ++ ((l.dropWhile wsChar).reverse.takeWhile wsChar).reverse := by
    have h2 := List.takeWhile_append_dropWhile
      (p := wsChar) (l := (l.dropWhile wsChar).reverse)
    calc l.dropWhile wsChar
        = ((l.dropWhile wsChar).reverse).reverse := (List.reverse_reverse _).symm
      _ = ((l.dropWhile wsChar).reverse.takeWhile wsChar
            ++ (l.dropWhile wsChar).reverse.dropWhile wsChar).reverse := by rw [h2]
      _ = stripL l
            ++ ((l.dropWhile wsChar).reverse.takeWhile wsChar).reverse := by
          rw [List.reverse_append]; rfl
  calc l = l.takeWhile wsChar ++ l.dropWhile wsChar :=
        (List.takeWhile_append_dropWhile (p := wsChar) (l := l)).symm
    _ = l.takeWhile wsChar
          ++ (stripL l ++ ((l.dropWhile wsChar).reverse.takeWhile wsChar).reverse) := by
        rw [← hdw]

theorem isSubL_stripL (l : List Char) : isSubL (stripL l) l = true := by
  obtain ⟨pre, post, h⟩ := exists_strip_decomp l
  nth_rewrite 2 [h]
  exact isSubL_sandwich pre (stripL l) post

theorem subStr_pyStrip (s : String) : subStr (pyStrip s) s = true :=
  isSubL_stripL s.data

theorem ne_empty_of_pyStrip_ne (s : String) (h : ¬ (pyStrip s = "")) :
    ¬ (s = "") := by
  intro he
  exact h (by rw [he]; rfl)

theorem featuresList_length (golden : Snapshot) (cs : List Elem) :
    (featuresList golden cs).length = cs.length := by
  simp [featuresList]

theorem heuristicScores_length (golden : Snapshot) (cs : List Elem) :
    (heuristicScores golden cs).length = cs.length := by
  simp [heuristicScores]

theorem labelsFor_length (golden : Snapshot) (cs : List Elem) :
    (labelsFor golden cs).length = cs.length := by
  simp [labelsFor]

theorem corpusAfterData_length (golden : Snapshot) (cs : List Elem) (td : List Feat) :
    (corpusAfterData golden cs td).length = td.length + cs.length := by
  simp [corpusAfterData, featuresList]

theorem corpusAfterLabels_length (golden : Snapshot) (cs : List Elem) (tl : List Nat) :
    (corpusAfterLabels golden cs tl).length = tl.length + cs.length := by
  simp [corpusAfterLabels, labelsFor]

theorem lookupPage_insertGolden (t : GoldenTable) (pk gid : String) (s : Snapshot) :
    lookupPage (insertGolden t pk gid s) pk
      = (lookupPage t pk).map (fun pg => (gid, s) :: pg) := by
  induction t with
  | nil => rfl
  | cons e rest ih =>
    rcases e with ⟨k, m⟩
    by_cases hk : pk = k
    · subst hk
      simp [insertGolden, lookupPage, lookupA]
    · have hk2 : ¬ (k = pk) := fun h2 => hk h2.symm
      simp only [insertGolden, if_neg hk2, lookupPage, lookupA, if_neg hk] at ih ⊢
      exact ih

theorem pyStrip_empty : pyStrip "" = "" := rfl

theorem labels_count_one (n b : Nat) (hb : b < n) :
    ((List.range n).map (fun i => if i = b then (1 : Nat) else 0)).count 1 = 1 := by
  induction n with
  | zero => simp at hb
  | succ n ih =>
    rw [List.range_succ, List.map_append, List.count_append]
    by_cases hbn : b = n
    · subst hbn
      have hz : ((List.range b).map (fun i => if i = b then (1 : Nat) else 0)).count 1 = 0 := by
        rw [List.count_eq_zero]
        intro hmem
        obtain ⟨i, hi, hfi⟩ := List.mem_map.mp hmem
        have hib : ¬ (i = b) := Nat.ne_of_lt (List.mem_range.mp hi)
        rw [if_neg hib] at hfi
        exact absurd hfi (by decide)
      simp [hz]
    · have hb2 : b < n := Nat.lt_of_le_of_ne (Nat.le_of_lt_succ hb) hbn
      have hnb : ¬ (n = b) := fun h => hbn h.symm
      rw [ih hb2]
      simp [hnb]

/-! ## Claim C3: tag mismatch short-circuits the similarity to 0 -/

/-- C3 counterexample: the tag strings `DIV` and `div` differ, yet
`compute_similarity` does not short-circuit to 0 — the comparison is on
lower-cased tags, and the matching id/name/data-testid/class attributes
score 33. -/
theorem c3_tag_case_counterexample :
    ¬ (cDivUpper.tag = gDiv.tag) ∧ compute_similarity gDiv cDivUpper = 33 := by
  constructor
  · decide
  · decide

/-- C3 (amended): `compute_similarity golden candidate` returns exactly 0
whenever the candidate's tag differs from the golden's tag after
lower-casing, regardless of every other attribute. -/
theorem c3_tag_gate (golden : Snapshot) (candidate : Elem)
    (h : ¬ (lowerStr candidate.tag = lowerStr golden.tag)) :
    compute_similarity golden candidate = 0 := by
  simp [compute_similarity, h]

theorem c3_tag_gate_witness :
    ¬ (lowerStr cSpan.tag = lowerStr gDiv.tag) ∧
    compute_similarity gDiv cSpan = 0 :=
  ⟨by decide, c3_tag_gate gDiv cSpan (by decide)⟩

/-! ## Claim C9: attributes absent on both sides count as matches -/

/-- C9: for id, name, data-testid and class, two `None` values compare
equal, so `compute_similarity` awards the full 10+10+8+5 = 33 to two
same-tag elements with no attributes at all (and `extract_features` sets
f0..f3 to 1); with parents present on both sides whose id and class are
also both absent, the parent-id (5) and parent-class (3) weights are
likewise awarded (and f8, f9 are 1), for 43 with the parent-tag bonus. -/
theorem c9_absent_attributes_match (t pt : String) :
    compute_similarity
      { tag := t, id := none, name := none, dataTestid := none, «class» := none,
        text := "", innerHTML := none, parent := none }
      { tag := t, id := none, name := none, dataTestid := none, «class» := none,
        placeholder := none, text := "", innerHTML := "", parent := none } = 33 ∧
    extract_features
      { tag := t, id := none, name := none, dataTestid := none, «class» := none,
        text := "", innerHTML := none, parent := none }
      { tag := t, id := none, name := none, dataTestid := none, «class» := none,
        placeholder := none, text := "", innerHTML := "", parent := none }
      = [1, 1, 1, 1, 0, 0, (33 : ℚ) / 48, 0, 0, 0] ∧
    compute_similarity
      { tag := t, id := none, name := none, dataTestid := none, «class» := none,
        text := "", innerHTML := none,
        parent := some { tag := pt, id := none, name := none, dataTestid := none,
                         «class» := none } }
      { tag := t, id := none, name := none, dataTestid := none, «class» := none,
        placeholder := none, text := "", innerHTML := "",
        parent := some { tag := pt, id := none, name := none, dataTestid := none,
                         «class» := none } } = 43 ∧
    extract_features
      { tag := t, id := none, name := none, dataTestid := none, «class» := none,
        text := "", innerHTML := none,
        parent := some { tag := pt, id := none, name := none, dataTestid := none,
                         «class» := none } }
      { tag := t, id := none, name := none, dataTestid := none, «class» := none,
        placeholder := none, text := "", innerHTML := "",
        parent := some { tag := pt, id := none, name := none, dataTestid := none,
                         «class» := none } }
      = [1, 1, 1, 1, 0, 0, (43 : ℚ) / 48, 1, 1, 1] ∧
    0 < compute_similarity
      { tag := t, id := none, name := none, dataTestid := none, «class» := none,
        text := "", innerHTML := none, parent := none }
      { tag := t, id := none, name := none, dataTestid := none, «class» := none,
        placeholder := none, text := "", innerHTML := "", parent := none } := by
  have h33 : compute_similarity
      { tag := t, id := none, name := none, dataTestid := none, «class» := none,
        text := "", innerHTML := none, parent := none }
      { tag := t, id := none, name := none, dataTestid := none, «class» := none,
        placeholder := none, text := "", innerHTML := "", parent := none } = 33 := by
    simp [compute_similarity, pyStrip_empty]
  have h43 : compute_similarity
      { tag := t, id := none, name := none, dataTestid := none, «class» := none,
        text := "", innerHTML := none,
        parent := some { tag := pt, id := none, name := none, dataTestid := none,
                         «class» := none } }
      { tag := t, id := none, name := none, dataTestid := none, «class» := none,
        placeholder := none, text := "", innerHTML := "",
        parent := some { tag := pt, id := none, name := none, dataTestid := none,
                         «class» := none } } = 43 := by
    simp [compute_similarity, pyStrip_empty]
  refine ⟨h33, ?_, h43, ?_, by rw [h33]; norm_num⟩
  · simp [extract_features, pyStrip_empty, h33]
  · simp [extract_features, pyStrip_empty, h43]

/-! ## Claim C4: a candidate identical in every captured attribute -/

/-- C4 counterexample: `eEmpty` agrees with its own captured snapshot in
every captured attribute (tag, id, name, data-testid, class, text,
innerHTML, parent tag/id/class), yet its similarity is 43, not 48, and
its feature flags are not all 1: the text and innerHTML weights require
the shared values to be non-empty. -/
theorem c4_identical_counterexample :
    compute_similarity (capture_element_attributes eEmpty) eEmpty = 43 ∧
    ¬ (compute_similarity (capture_element_attributes eEmpty) eEmpty = 48) ∧
    ¬ (extract_features (capture_element_attributes eEmpty) eEmpty
        = [1, 1, 1, 1, 1, 1, 1, 1, 1, 1]) := by
  refine ⟨by decide, by decide, by decide⟩

/-- C4 (amended): for every element agreeing with its captured golden
snapshot in every captured attribute, provided the stripped text is
non-empty, the element is a `div` (so an innerHTML snapshot exists) with
non-empty stripped innerHTML, and a parent is present, the similarity is
the maximum 48 and the feature vector is all 1s with f6 = 1. -/
theorem c4_identical_max_score (e : Elem) (p : PElem)
    (hp : e.parent = some p)
    (hdiv : lowerStr e.tag = "div")
    (ht : ¬ (pyStrip e.text = ""))
    (hih : ¬ (pyStrip e.innerHTML = "")) :
    compute_similarity (capture_element_attributes e) e = 48 ∧
    extract_features (capture_element_attributes e) e
      = [1, 1, 1, 1, 1, 1, 1, 1, 1, 1] := by
  have hsim : compute_similarity (capture_element_attributes e) e = 48 := by
    simp [compute_similarity, capture_element_attributes, hdiv, hp, ht, hih,
      subStr_refl]
  refine ⟨hsim, ?_⟩
  have hraw : ¬ (e.innerHTML = "") := ne_empty_of_pyStrip_ne _ hih
  have hsim2 := hsim
  simp [capture_element_attributes, hdiv, hp] at hsim2
  simp [extract_features, capture_element_attributes, hdiv, hp, ht, hih,
    subStr_refl, subStr_pyStrip, hraw, hsim2]

/-! ## Claim C5: corpus length invariant -/

/-- C5: in every healing round the returned corpus is exactly the input
corpus with one feature row and one label appended per candidate (also
when the round later fails verification, mirroring the in-place list
mutation), and over any session of N rounds with candidate sets of sizes
c1..cN both corpus lists grow by exactly sum(ci), with the vector and
label lists staying the same length throughout. -/
theorem c5_corpus_invariant :
    (∀ (fit : Fit) (d : Driver) (golden : Snapshot) (td : List Feat) (tl : List Nat)
        (model : Option Model) (files : Files),
      (self_heal_selector fit d golden td tl model files).1.1
          = corpusAfterData golden (get_all_candidates d golden) td ∧
      (self_heal_selector fit d golden td tl model files).1.2.1
          = corpusAfterLabels golden (get_all_candidates d golden) tl) ∧
    (∀ (rounds : List (Snapshot × List Elem)) (td : List Feat) (tl : List Nat),
      (runRounds rounds (td, tl)).1.length = td.length + sumC rounds ∧
      (runRounds rounds (td, tl)).2.length = tl.length + sumC rounds ∧
      (td.length = tl.length →
        (runRounds rounds (td, tl)).1.length = (runRounds rounds (td, tl)).2.length)) := by
  constructor
  · intro fit d golden td tl model files
    rcases hcs : get_all_candidates d golden with _ | ⟨c0, rest⟩
    · simp [self_heal_selector, hcs, corpusAfterData, corpusAfterLabels,
        featuresList, labelsFor]
    · rcases hfe : d.findElement (generate_selector
          (chosenElem fit golden (c0 :: rest) td tl model c0)) with _ | e
      · simp [self_heal_selector, hcs, hfe]
      · simp [self_heal_selector, hcs, hfe]
  · intro rounds
    induction rounds with
    | nil =>
      intro td tl
      simp [runRounds, sumC]
    | cons r rs ih =>
      intro td tl
      have h := ih (corpusAfterData r.1 r.2 td) (corpusAfterLabels r.1 r.2 tl)
      have ha := h.1
      have hb := h.2.1
      have hr : runRounds (r :: rs) (td, tl)
          = runRounds rs (corpusAfterData r.1 r.2 td, corpusAfterLabels r.1 r.2 tl) := by
        simp [runRounds, heal_append]
      have h1 : (corpusAfterData r.1 r.2 td).length = td.length + r.2.length :=
        corpusAfterData_length r.1 r.2 td
      have h2 : (corpusAfterLabels r.1 r.2 tl).length = tl.length + r.2.length :=
        corpusAfterLabels_length r.1 r.2 tl
      have hs : sumC (r :: rs) = r.2.length + sumC rs := by simp [sumC]
      refine ⟨?_, ?_, ?_⟩
      · rw [hr]
        omega
      · rw [hr]
        omega
      · intro heq
        rw [hr]
        omega

theorem c5_corpus_invariant_witness :
    ([] : List Feat).length = ([] : List Nat).length ∧
    (runRounds [(gW, [cW0, cW1])] ([], [])).1.length
      = (runRounds [(gW, [cW0, cW1])] ([], [])).2.length :=
  ⟨rfl, (c5_corpus_invariant.2 [(gW, [cW0, cW1])] [] []).2.2 rfl⟩

/-! ## Claim C8: corpus and model persisted iff the retrain fires -/

/-- C8: in every healing round that found candidates, the durable files
after the round are `filesAfter`; they hold exactly the appended corpus
and the freshly fit model when the appended corpus length reaches the
threshold 5, and are untouched (the new examples not persisted) when it
stays below. -/
theorem c8_persistence_boundary (fit : Fit) (d : Driver) (golden : Snapshot)
    (td : List Feat) (tl : List Nat) (model : Option Model) (files : Files)
    (c0 : Elem) (rest : List Elem)
    (hcs : get_all_candidates d golden = c0 :: rest) :
    (self_heal_selector fit d golden td tl model files).1.2.2
        = filesAfter fit golden (c0 :: rest) td tl files ∧
    (MIN_SAMPLES_FOR_MODEL ≤ tl.length + (c0 :: rest).length →
      filesAfter fit golden (c0 :: rest) td tl files
        = { trainingFile := some (corpusAfterData golden (c0 :: rest) td,
                                  corpusAfterLabels golden (c0 :: rest) tl)
            modelFile := some (fit (corpusAfterData golden (c0 :: rest) td)
                                   (corpusAfterLabels golden (c0 :: rest) tl)) }) ∧
    (tl.length + (c0 :: rest).length < MIN_SAMPLES_FOR_MODEL →
      filesAfter fit golden (c0 :: rest) td tl files = files) := by
  refine ⟨?_, ?_, ?_⟩
  · rcases hfe : d.findElement (generate_selector
        (chosenElem fit golden (c0 :: rest) td tl model c0)) with _ | e
    · simp [self_heal_selector, hcs, hfe]
    · simp [self_heal_selector, hcs, hfe]
  · intro hn
    simp only [filesAfter]
    rw [if_pos (by rw [corpusAfterLabels_length]; exact hn)]
  · intro hn
    simp only [filesAfter]
    rw [if_neg (by rw [corpusAfterLabels_length]; omega)]

theorem c8_persistence_boundary_witness :
    get_all_candidates dW gW = [cW0, cW1] ∧
    (self_heal_selector fitW dW gW [] [] none filesW).1.2.2
        = filesAfter fitW gW [cW0, cW1] [] [] filesW ∧
    filesAfter fitW gW [cW0, cW1] [] [] filesW = filesW := by
  have h := c8_persistence_boundary fitW dW gW [] [] none filesW cW0 [cW1] (by decide)
  exact ⟨by decide, h.1, h.2.2 (by decide)⟩

/-! ## Claim C2: the verification gate is terminal -/

/-- C2: in every healing round, when the locator synthesized for the
winning candidate does not re-resolve on the live page the round raises
the terminal verification error; and every successful round returns
exactly the synthesized locator for the winner, verified to resolve —
there is no retry with a weaker synthesis rule. -/
theorem c2_verification_gate (fit : Fit) (d : Driver) (golden : Snapshot)
    (td : List Feat) (tl : List Nat) (model : Option Model) (files : Files)
    (c0 : Elem) (rest : List Elem)
    (hcs : get_all_candidates d golden = c0 :: rest) :
    (d.findElement (generate_selector
        (chosenElem fit golden (c0 :: rest) td tl model c0)) = none →
      (self_heal_selector fit d golden td tl model files).2
        = Except.error HealErr.healingVerificationFailed) ∧
    (∀ sel e m2, (self_heal_selector fit d golden td tl model files).2
        = Except.ok (sel, e, m2) →
      sel = generate_selector (chosenElem fit golden (c0 :: rest) td tl model c0) ∧
      ¬ (d.findElement sel = none)) := by
  constructor
  · intro h
    simp [self_heal_selector, hcs, h]
  · intro sel e m2 hok
    rcases hfe : d.findElement (generate_selector
        (chosenElem fit golden (c0 :: rest) td tl model c0)) with _ | x
    · simp [self_heal_selector, hcs, hfe] at hok
    · simp [self_heal_selector, hcs, hfe] at hok
      obtain ⟨h1, h2, h3⟩ := hok
      refine ⟨h1.symm, ?_⟩
      rw [← h1, hfe]
      simp

theorem c2_verification_gate_witness :
    get_all_candidates dV gW = [cW0] ∧
    (self_heal_selector fitW dV gW [] [] none filesW).2
      = Except.error HealErr.healingVerificationFailed := by
  have h := c2_verification_gate fitW dV gW [] [] none filesW cW0 [] (by decide)
  exact ⟨by decide, h.1 (by decide)⟩

/-! ## Claim C6: golden capture is idempotent, entries never overwritten -/

/-- C6: when an entry already exists under the derived identifier,
`capture_golden_if_missing` returns that identifier with the table and
the persisted file untouched; consequently capturing the same locator
twice leaves the stored state exactly as after the first capture. -/
theorem c6_capture_idempotent (d : Driver) (st : AgentSt) (xpath : String) :
    (∀ pg snap,
      lookupPage st.table st.pageKey = some pg →
      lookupA pg (generate_golden_identifier d xpath none) = some snap →
      capture_golden_if_missing d st xpath
        = some (generate_golden_identifier d xpath none, st)) ∧
    (∀ g1 st1,
      capture_golden_if_missing d st xpath = some (g1, st1) →
      capture_golden_if_missing d st1 xpath = some (g1, st1)) := by
  constructor
  · intro pg snap hpg hlk
    simp [capture_golden_if_missing, hpg, hlk]
  · intro g1 st1 hcap
    rcases hpg : lookupPage st.table st.pageKey with _ | pg
    · simp [capture_golden_if_missing, hpg] at hcap
    · rcases hlk : lookupA pg (generate_golden_identifier d xpath none) with _ | snap
      · rcases hfe : d.findElement xpath with _ | e3
        · simp [capture_golden_if_missing, hpg, hlk, hfe] at hcap
          obtain ⟨h1, h2⟩ := hcap
          subst h1
          subst h2
          simp [capture_golden_if_missing, hpg, hlk, hfe]
        · have hl2 : lookupPage (insertGolden st.table st.pageKey
              (generate_golden_identifier d xpath none)
              (capture_element_attributes e3)) st.pageKey
              = some ((generate_golden_identifier d xpath none,
                       capture_element_attributes e3) :: pg) := by
            rw [lookupPage_insertGolden, hpg]
            rfl
          simp [capture_golden_if_missing, hpg, hlk, hfe] at hcap
          obtain ⟨h1, h2⟩ := hcap
          subst h1
          subst h2
          simp [capture_golden_if_missing, hl2, lookupA]
      · simp [capture_golden_if_missing, hpg, hlk] at hcap
        obtain ⟨h1, h2⟩ := hcap
        subst h1
        subst h2
        simp [capture_golden_if_missing, hpg, hlk]

theorem c6_capture_idempotent_witness :
    lookupPage stB.table stB.pageKey = some pgB ∧
    lookupA pgB (generate_golden_identifier dW "//input" none)
      = some (capture_element_attributes cW0) ∧
    capture_golden_if_missing dW stB "//input"
      = some (generate_golden_identifier dW "//input" none, stB) := by
  have h := c6_capture_idempotent dW stB "//input"
  exact ⟨by decide, by decide,
    h.1 pgB (capture_element_attributes cW0) (by decide) (by decide)⟩

/-! ## Claim C7: how the Agent derives the stored golden identifier -/

/-- C7 counterexample: the element at `//input` on `dC`'s page carries a
`data-testid` of `foo`, so the claimed priority order would store
`Login_Page_golden_foo`; the Agent's capture instead stores the
identifier derived from the sanitized locator, because
`capture_golden_if_missing` never passes the element to
`generate_golden_identifier`. -/
theorem c7_priority_counterexample :
    generate_golden_identifier dC "//input" (some eTid) = "Login_Page_golden_foo" ∧
    (capture_golden_if_missing dC stC "//input").map Prod.fst
      = some "Login_Page_golden___input" ∧
    ¬ ((capture_golden_if_missing dC stC "//input").map Prod.fst
        = some "Login_Page_golden_foo") := by
  refine ⟨by decide, by decide, by decide⟩

/-- C7 (amended): every capture performed by the Agent derives the golden
identifier from the normalized page title plus the sanitized original
locator string only; the data-testid / id-name / tag+class / tag+text
priority chain applies only when an element is supplied explicitly,
which the Agent's capture path never does. -/
theorem c7_identifier_derivation (d : Driver) (st : AgentSt) (xpath : String)
    (g1 : String) (st1 : AgentSt)
    (h : capture_golden_if_missing d st xpath = some (g1, st1)) :
    g1 = pyReplace1 ' ' "_" d.title ++ "_golden_"
        ++ pyReplace1 '@' "" (pyReplace1 ']' "" (pyReplace1 '[' ""
             (pyReplace1 '/' "_" xpath))) ∧
    g1 = generate_golden_identifier d xpath none := by
  have h2 : g1 = generate_golden_identifier d xpath none := by
    rcases hpg : lookupPage st.table st.pageKey with _ | pg
    · simp [capture_golden_if_missing, hpg] at h
    · rcases hlk : lookupA pg (generate_golden_identifier d xpath none) with _ | snap
      · rcases hfe : d.findElement xpath with _ | e3
        · simp [capture_golden_if_missing, hpg, hlk, hfe] at h
          exact h.1.symm
        · simp [capture_golden_if_missing, hpg, hlk, hfe] at h
          exact h.1.symm
      · simp [capture_golden_if_missing, hpg, hlk] at h
        exact h.1.symm
  exact ⟨by rw [h2]; rfl, h2⟩

theorem c7_identifier_derivation_witness :
    capture_golden_if_missing dC stC "//input"
      = some ("Login_Page_golden___input", stC2) ∧
    ("Login_Page_golden___input"
        = pyReplace1 ' ' "_" dC.title ++ "_golden_"
            ++ pyReplace1 '@' "" (pyReplace1 ']' "" (pyReplace1 '[' ""
                 (pyReplace1 '/' "_" "//input"))) ∧
     "Login_Page_golden___input" = generate_golden_identifier dC "//input" none) := by
  have h := c7_identifier_derivation dC stC "//input"
    "Login_Page_golden___input" stC2 (by decide)
  exact ⟨by decide, h⟩

/-! ## Claim C1: which ranker decides a round -/

/-- C1 counterexample: with a pre-loaded model and a corpus of length 2
after appending (below the threshold 5) the round's winner is the
model's probability arg-max (`cW1`), not the heuristic arg-max (`cW0`):
the code falls back to the heuristic only when *no* model object is
present, not whenever the corpus is below the threshold. -/
theorem c1_claim_counterexample :
    (corpusAfterLabels gW [cW0, cW1] []).length < MIN_SAMPLES_FOR_MODEL ∧
    ¬ (some mLast = (none : Option Model)) ∧
    bestIndexHeuristic gW [cW0, cW1] = 0 ∧
    (self_heal_selector fitW dW gW [] [] (some mLast) filesW).2
      = Except.ok (generate_selector cW1, cW1, some mLast) ∧
    ¬ (cW1 = [cW0, cW1].getD (bestIndexHeuristic gW [cW0, cW1]) cW0) :=
  ⟨by decide, by simp, by decide, rfl, by decide⟩

/-- C1 (amended): in every healing round with candidates, the heuristic
arg-max decides the round exactly when no model object is in force —
that is, when no model was loaded *and* the appended corpus is still
below the threshold 5; when appending pushes the corpus to 5 or beyond,
a classifier freshly fit on the entire accumulated corpus is the model
in force and its class-1 probability arg-max decides that same round;
and the round's successful result reports exactly that winner and that
model. -/
theorem c1_ranking_policy (fit : Fit) (d : Driver) (golden : Snapshot)
    (td : List Feat) (tl : List Nat) (model : Option Model) (files : Files)
    (c0 : Elem) (rest : List Elem)
    (hcs : get_all_candidates d golden = c0 :: rest) :
    (model = none → tl.length + (c0 :: rest).length < MIN_SAMPLES_FOR_MODEL →
      chosenElem fit golden (c0 :: rest) td tl model c0
        = (c0 :: rest).getD (bestIndexHeuristic golden (c0 :: rest)) c0) ∧
    (MIN_SAMPLES_FOR_MODEL ≤ tl.length + (c0 :: rest).length →
      modelAfter fit golden (c0 :: rest) td tl model
        = some (fit (corpusAfterData golden (c0 :: rest) td)
                    (corpusAfterLabels golden (c0 :: rest) tl)) ∧
      chosenElem fit golden (c0 :: rest) td tl model c0
        = (c0 :: rest).getD
            (argmaxL ((fit (corpusAfterData golden (c0 :: rest) td)
                           (corpusAfterLabels golden (c0 :: rest) tl)).predict
                        (featuresList golden (c0 :: rest)))) c0) ∧
    (∀ sel e m2, (self_heal_selector fit d golden td tl model files).2
        = Except.ok (sel, e, m2) →
      e = chosenElem fit golden (c0 :: rest) td tl model c0 ∧
      m2 = modelAfter fit golden (c0 :: rest) td tl model) := by
  refine ⟨?_, ?_, ?_⟩
  · intro hm hn
    have hma : modelAfter fit golden (c0 :: rest) td tl model = none := by
      simp only [modelAfter]
      rw [if_neg (by rw [corpusAfterLabels_length]; omega)]
      exact hm
    simp [chosenElem, hma, bestIndexHeuristic]
  · intro hn
    have hma : modelAfter fit golden (c0 :: rest) td tl model
        = some (fit (corpusAfterData golden (c0 :: rest) td)
                    (corpusAfterLabels golden (c0 :: rest) tl)) := by
      simp only [modelAfter]
      rw [if_pos (by rw [corpusAfterLabels_length]; exact hn)]
    exact ⟨hma, by simp [chosenElem, hma]⟩
  · intro sel e m2 hok
    rcases hfe : d.findElement (generate_selector
        (chosenElem fit golden (c0 :: rest) td tl model c0)) with _ | x
    · simp [self_heal_selector, hcs, hfe] at hok
    · simp [self_heal_selector, hcs, hfe] at hok
      exact ⟨hok.2.1.symm, hok.2.2.symm⟩

theorem c1_ranking_policy_witness :
    get_all_candidates dW gW = [cW0, cW1] ∧
    chosenElem fitW gW [cW0, cW1] [] [] none cW0
      = [cW0, cW1].getD (bestIndexHeuristic gW [cW0, cW1]) cW0 := by
  have h := c1_ranking_policy fitW dW gW [] [] none filesW cW0 [cW1] (by decide)
  exact ⟨by decide, h.1 rfl (by decide)⟩

/-! ## Claim C10: exactly one label 1, at the first maximum -/

/-- C10: in every round with at least one candidate, the labelled index
is in range, gets label 1, every other index gets 0, exactly one label 1
is handed out, the labelled index attains the maximum heuristic score,
every strictly earlier index scores strictly less (first-maximum tie
break), and whenever a model is in force the round's winner is the
candidate at the same first-maximum rule applied to the model's class-1
probabilities. -/
theorem c10_label_argmax (golden : Snapshot) (c0 : Elem) (rest : List Elem) :
    bestIndexHeuristic golden (c0 :: rest) < (c0 :: rest).length ∧
    (labelsFor golden (c0 :: rest)).getD (bestIndexHeuristic golden (c0 :: rest)) 0 = 1 ∧
    (∀ j, j < (c0 :: rest).length → ¬ (j = bestIndexHeuristic golden (c0 :: rest)) →
      (labelsFor golden (c0 :: rest)).getD j 0 = 0) ∧
    (labelsFor golden (c0 :: rest)).count 1 = 1 ∧
    (∀ j, j < (c0 :: rest).length →
      (heuristicScores golden (c0 :: rest)).getD j 0
        ≤ (heuristicScores golden (c0 :: rest)).getD
            (bestIndexHeuristic golden (c0 :: rest)) 0) ∧
    (∀ j, j < bestIndexHeuristic golden (c0 :: rest) →
      (heuristicScores golden (c0 :: rest)).getD j 0
        < (heuristicScores golden (c0 :: rest)).getD
            (bestIndexHeuristic golden (c0 :: rest)) 0) ∧
    (∀ (m : Model) (fit : Fit) (td : List Feat) (tl : List Nat) (model : Option Model),
      modelAfter fit golden (c0 :: rest) td tl model = some m →
      chosenElem fit golden (c0 :: rest) td tl model c0
        = (c0 :: rest).getD (argmaxL (m.predict (featuresList golden (c0 :: rest)))) c0 ∧
      (∀ j, j < argmaxL (m.predict (featuresList golden (c0 :: rest))) →
        (m.predict (featuresList golden (c0 :: rest))).getD j 0
          < (m.predict (featuresList golden (c0 :: rest))).getD
              (argmaxL (m.predict (featuresList golden (c0 :: rest)))) 0)) := by
  have hsc_len : (heuristicScores golden (c0 :: rest)).length = (c0 :: rest).length :=
    heuristicScores_length golden (c0 :: rest)
  have hne : ¬ (heuristicScores golden (c0 :: rest) = []) := by
    intro h0
    rw [h0] at hsc_len
    simp at hsc_len
  have hb : bestIndexHeuristic golden (c0 :: rest) < (c0 :: rest).length := by
    rw [← hsc_len]
    exact argmaxL_lt_length _ hne
  have hmax := getD_argmaxL _ hne
  have hlab_len : (labelsFor golden (c0 :: rest)).length = (c0 :: rest).length :=
    labelsFor_length golden (c0 :: rest)
  refine ⟨hb, ?_, ?_, ?_, ?_, ?_, ?_⟩
  · have hlt : bestIndexHeuristic golden (c0 :: rest)
        < (labelsFor golden (c0 :: rest)).length := by rw [hlab_len]; exact hb
    rw [List.getD_eq_getElem?_getD, List.getElem?_eq_getElem hlt]
    simp [labelsFor]
  · intro j hj hjb
    have hlt : j < (labelsFor golden (c0 :: rest)).length := by rw [hlab_len]; exact hj
    rw [List.getD_eq_getElem?_getD, List.getElem?_eq_getElem hlt]
    simp [labelsFor, hjb]
  · exact labels_count_one _ _ hb
  · intro j hj
    rw [bestIndexHeuristic, hmax]
    exact getD_le_maxVal _ j (by rw [hsc_len]; exact hj)
  · intro j hj
    rw [bestIndexHeuristic, hmax]
    exact getD_lt_of_lt_argmaxL _ j hj
  · intro m fit td tl model hm
    have hplen : (m.predict (featuresList golden (c0 :: rest))).length
        = (c0 :: rest).length := by
      rw [m.len_eq, featuresList_length]
    have hpne : ¬ (m.predict (featuresList golden (c0 :: rest)) = []) := by
      intro h0
      rw [h0] at hplen
      simp at hplen
    refine ⟨by simp [chosenElem, hm], ?_⟩
    intro j hj
    rw [getD_argmaxL _ hpne]
    exact getD_lt_of_lt_argmaxL _ j hj

theorem c10_label_argmax_witness :
    bestIndexHeuristic gW [cW0, cW1] < ([cW0, cW1] : List Elem).length ∧
    (labelsFor gW [cW0, cW1]).getD (bestIndexHeuristic gW [cW0, cW1]) 0 = 1 ∧
    (labelsFor gW [cW0, cW1]).count 1 = 1 :=
  ⟨(c10_label_argmax gW cW0 [cW1]).1, (c10_label_argmax gW cW0 [cW1]).2.1,
   (c10_label_argmax gW cW0 [cW1]).2.2.2.1⟩

theorem c4_identical_max_score_witness :
    eFull.parent = some pFull ∧ lowerStr eFull.tag = "div" ∧
    ¬ (pyStrip eFull.text = "") ∧ ¬ (pyStrip eFull.innerHTML = "") ∧
    (compute_similarity (capture_element_attributes eFull) eFull = 48 ∧
     extract_features (capture_element_attributes eFull) eFull
       = [1, 1, 1, 1, 1, 1, 1, 1, 1, 1]) :=
  ⟨by decide, by decide, by decide, by decide,
   c4_identical_max_score eFull pFull (by decide) (by decide) (by decide) (by decide)⟩

end SelfHealing
